import Mathlib

/-!
Shallow embedding of the checkpoint resolution and batch-kwargs
type-validation subsystem of `great_expectations`:
  - `src/great_expectations/datasource/types/batch_kwargs.py`
  - `src/great_expectations/cli/checkpoint.py`
Python dicts over string keys are embedded as association lists
(`List (String × PyVal)`); `key in self` is `(lookup key).isSome`,
`self.get(key)` is `lookup key` (Python's `dict.get` returns `None`
for an absent key, embedded as the `Option.none` of the lookup).
-/

namespace GE

/-- Embedded Python runtime values that can occur in batch kwargs
mappings: strings, integers, None, pandas DataFrames, spark
DataFrames, and other opaque objects (identified by a tag). -/
inductive PyVal where
  | str (s : String)
  | int (n : Int)
  | none
  | pandasDF (tag : Nat)
  | sparkDF (tag : Nat)
  | obj (tag : Nat)
deriving DecidableEq, Repr

/-- Python dict of string keys, as an association list. -/
abbrev KwargsDict := List (String × PyVal)

/-- The exceptions raised by `batch_kwargs.py`
(`great_expectations.exceptions`), each carrying its message. -/
inductive GEError where
  | invalidBatchKwargsError (msg : String)
  | invalidBatchIdError (msg : String)
deriving DecidableEq, Repr

/-- `BatchMarkers` (a dict subclass); `toMap` is the underlying dict. -/
structure BatchMarkers where
  toMap : KwargsDict
deriving DecidableEq, Repr

/-- `BatchMarkers.__init__`: stores the mapping, then raises
`InvalidBatchIdError` if `"ge_load_time" not in self`. -/
def BatchMarkers.init (m : KwargsDict) : Except GEError BatchMarkers :=
  match m.lookup "ge_load_time" with
  | some _ => .ok ⟨m⟩
  | Option.none => .error (.invalidBatchIdError "BatchMarkers requires a ge_load_time")

/-- `BatchMarkers.ge_load_time` property: `self.get("ge_load_time")`. -/
def BatchMarkers.ge_load_time (b : BatchMarkers) : Option PyVal :=
  b.toMap.lookup "ge_load_time"

/-- `PathBatchKwargs` (inherits the Pandas and SparkDF marker bases,
which add no checks). -/
structure PathBatchKwargs where
  toMap : KwargsDict
deriving DecidableEq, Repr

/-- `PathBatchKwargs.__init__`: raises `InvalidBatchKwargsError` if
`"path" not in self`. -/
def PathBatchKwargs.init (m : KwargsDict) : Except GEError PathBatchKwargs :=
  match m.lookup "path" with
  | some _ => .ok ⟨m⟩
  | Option.none => .error (.invalidBatchKwargsError "PathBatchKwargs requires a path element")

/-- `PathBatchKwargs.path` property: `self.get("path")`. -/
def PathBatchKwargs.path (b : PathBatchKwargs) : Option PyVal :=
  b.toMap.lookup "path"

/-- `PathBatchKwargs.reader_method` property. -/
def PathBatchKwargs.reader_method (b : PathBatchKwargs) : Option PyVal :=
  b.toMap.lookup "reader_method"

/-- `S3BatchKwargs`. -/
structure S3BatchKwargs where
  toMap : KwargsDict
deriving DecidableEq, Repr

/-- `S3BatchKwargs.__init__`: raises `InvalidBatchKwargsError` if
`"s3" not in self` (the source's message says "path element"). -/
def S3BatchKwargs.init (m : KwargsDict) : Except GEError S3BatchKwargs :=
  match m.lookup "s3" with
  | some _ => .ok ⟨m⟩
  | Option.none => .error (.invalidBatchKwargsError "S3BatchKwargs requires a path element")

/-- `S3BatchKwargs.s3` property. -/
def S3BatchKwargs.s3 (b : S3BatchKwargs) : Option PyVal :=
  b.toMap.lookup "s3"

/-- `S3BatchKwargs.reader_method` property. -/
def S3BatchKwargs.reader_method (b : S3BatchKwargs) : Option PyVal :=
  b.toMap.lookup "reader_method"

/-- `InMemoryBatchKwargs`. -/
structure InMemoryBatchKwargs where
  toMap : KwargsDict
deriving DecidableEq, Repr

/-- `InMemoryBatchKwargs.__init__`: raises `InvalidBatchKwargsError`
if `"dataset" not in self`. -/
def InMemoryBatchKwargs.init (m : KwargsDict) : Except GEError InMemoryBatchKwargs :=
  match m.lookup "dataset" with
  | some _ => .ok ⟨m⟩
  | Option.none => .error (.invalidBatchKwargsError "InMemoryBatchKwargs requires a 'dataset' element")

/-- `InMemoryBatchKwargs.dataset` property. -/
def InMemoryBatchKwargs.dataset (b : InMemoryBatchKwargs) : Option PyVal :=
  b.toMap.lookup "dataset"

/-- `PandasDatasourceInMemoryBatchKwargs`. -/
structure PandasDatasourceInMemoryBatchKwargs where
  toMap : KwargsDict
deriving DecidableEq, Repr

/-- Whether an embedded value is a pandas DataFrame
(`isinstance(v, pd.DataFrame)`). -/
def PyVal.isPandasDF : PyVal → Bool
  | .pandasDF _ => true
  | _ => false

/-- Whether an embedded value is a spark DataFrame
(`isinstance(v, pyspark.sql.DataFrame)`). -/
def PyVal.isSparkDF : PyVal → Bool
  | .sparkDF _ => true
  | _ => false

/-- `PandasDatasourceInMemoryBatchKwargs.__init__`: runs the
`InMemoryBatchKwargs` check, then raises `InvalidBatchKwargsError`
unless `self["dataset"]` is a pandas DataFrame (pandas itself is an
unconditional import of the module and is taken as importable). -/
def PandasDatasourceInMemoryBatchKwargs.init (m : KwargsDict) :
    Except GEError PandasDatasourceInMemoryBatchKwargs :=
  match InMemoryBatchKwargs.init m with
  | .error e => .error e
  | .ok _ =>
    match m.lookup "dataset" with
    | some v =>
      if v.isPandasDF then .ok ⟨m⟩
      else .error (.invalidBatchKwargsError
        "PandasDatasourceInMemoryBatchKwargs 'dataset' must be a pandas DataFrame")
    | Option.none => .error (.invalidBatchKwargsError
        "PandasDatasourceInMemoryBatchKwargs 'dataset' must be a pandas DataFrame")

/-- `SparkDFDatasourceInMemoryBatchKwargs`. -/
structure SparkDFDatasourceInMemoryBatchKwargs where
  toMap : KwargsDict
deriving DecidableEq, Repr

/-- `SparkDFDatasourceInMemoryBatchKwargs.__init__`: runs the
`InMemoryBatchKwargs` check, then `import pyspark` (raising
`InvalidBatchKwargsError` when the import fails, modelled by the
`pysparkAvailable` flag), then raises `InvalidBatchKwargsError`
unless `self["dataset"]` is a spark DataFrame. -/
def SparkDFDatasourceInMemoryBatchKwargs.init (pysparkAvailable : Bool) (m : KwargsDict) :
    Except GEError SparkDFDatasourceInMemoryBatchKwargs :=
  match InMemoryBatchKwargs.init m with
  | .error e => .error e
  | .ok _ =>
    if !pysparkAvailable then
      .error (.invalidBatchKwargsError
        "SparkDFDatasourceInMemoryBatchKwargs requires a valid pyspark installation, but pyspark import failed.")
    else
      match m.lookup "dataset" with
      | some v =>
        if v.isSparkDF then .ok ⟨m⟩
        else .error (.invalidBatchKwargsError
          "SparkDFDatasourceInMemoryBatchKwargs 'dataset' must be a spark DataFrame")
      | Option.none => .error (.invalidBatchKwargsError
          "SparkDFDatasourceInMemoryBatchKwargs 'dataset' must be a spark DataFrame")

/-- `SqlAlchemyDatasourceTableBatchKwargs`. -/
structure SqlAlchemyDatasourceTableBatchKwargs where
  toMap : KwargsDict
deriving DecidableEq, Repr

/-- `SqlAlchemyDatasourceTableBatchKwargs.__init__`: raises
`InvalidBatchKwargsError` if `"table" not in self`. -/
def SqlAlchemyDatasourceTableBatchKwargs.init (m : KwargsDict) :
    Except GEError SqlAlchemyDatasourceTableBatchKwargs :=
  match m.lookup "table" with
  | some _ => .ok ⟨m⟩
  | Option.none => .error (.invalidBatchKwargsError
      "SqlAlchemyDatasourceTableBatchKwargs requires a 'table' element")

/-- `SqlAlchemyDatasourceTableBatchKwargs.table` property. -/
def SqlAlchemyDatasourceTableBatchKwargs.table (b : SqlAlchemyDatasourceTableBatchKwargs) :
    Option PyVal :=
  b.toMap.lookup "table"

/-- `limit` property inherited from `SqlAlchemyDatasourceBatchKwargs`. -/
def SqlAlchemyDatasourceTableBatchKwargs.limit (b : SqlAlchemyDatasourceTableBatchKwargs) :
    Option PyVal :=
  b.toMap.lookup "limit"

/-- `schema` property inherited from `SqlAlchemyDatasourceBatchKwargs`. -/
def SqlAlchemyDatasourceTableBatchKwargs.schema (b : SqlAlchemyDatasourceTableBatchKwargs) :
    Option PyVal :=
  b.toMap.lookup "schema"

/-- `SqlAlchemyDatasourceQueryBatchKwargs`. -/
structure SqlAlchemyDatasourceQueryBatchKwargs where
  toMap : KwargsDict
deriving DecidableEq, Repr

/-- `SqlAlchemyDatasourceQueryBatchKwargs.__init__`: raises
`InvalidBatchKwargsError` if `"query" not in self`. -/
def SqlAlchemyDatasourceQueryBatchKwargs.init (m : KwargsDict) :
    Except GEError SqlAlchemyDatasourceQueryBatchKwargs :=
  match m.lookup "query" with
  | some _ => .ok ⟨m⟩
  | Option.none => .error (.invalidBatchKwargsError
      "SqlAlchemyDatasourceQueryBatchKwargs requires a 'query' element")

/-- `SqlAlchemyDatasourceQueryBatchKwargs.query` property. -/
def SqlAlchemyDatasourceQueryBatchKwargs.query (b : SqlAlchemyDatasourceQueryBatchKwargs) :
    Option PyVal :=
  b.toMap.lookup "query"

/-- `SqlAlchemyDatasourceQueryBatchKwargs.query_parameters` property. -/
def SqlAlchemyDatasourceQueryBatchKwargs.query_parameters
    (b : SqlAlchemyDatasourceQueryBatchKwargs) : Option PyVal :=
  b.toMap.lookup "query_parameters"

/-- `limit` property inherited from `SqlAlchemyDatasourceBatchKwargs`. -/
def SqlAlchemyDatasourceQueryBatchKwargs.limit (b : SqlAlchemyDatasourceQueryBatchKwargs) :
    Option PyVal :=
  b.toMap.lookup "limit"

/-- `schema` property inherited from `SqlAlchemyDatasourceBatchKwargs`. -/
def SqlAlchemyDatasourceQueryBatchKwargs.schema (b : SqlAlchemyDatasourceQueryBatchKwargs) :
    Option PyVal :=
  b.toMap.lookup "schema"

/-- `SparkDFDatasourceQueryBatchKwargs`. -/
structure SparkDFDatasourceQueryBatchKwargs where
  toMap : KwargsDict
deriving DecidableEq, Repr

/-- `SparkDFDatasourceQueryBatchKwargs.__init__`: raises
`InvalidBatchKwargsError` if `"query" not in self`. -/
def SparkDFDatasourceQueryBatchKwargs.init (m : KwargsDict) :
    Except GEError SparkDFDatasourceQueryBatchKwargs :=
  match m.lookup "query" with
  | some _ => .ok ⟨m⟩
  | Option.none => .error (.invalidBatchKwargsError
      "SparkDFDatasourceQueryBatchKwargs requires a 'query' element")

/-- `SparkDFDatasourceQueryBatchKwargs.query` property. -/
def SparkDFDatasourceQueryBatchKwargs.query (b : SparkDFDatasourceQueryBatchKwargs) :
    Option PyVal :=
  b.toMap.lookup "query"

/-- Injective textual encoding of an embedded value, used by the
fingerprint's canonical serialization. -/
def PyVal.encode : PyVal → String
  | .str s => "s:" ++ s
  | .int n => "i:" ++ toString n
  | .none => "n"
  | .pandasDF t => "pdf:" ++ toString t
  | .sparkDF t => "sdf:" ++ toString t
  | .obj t => "obj:" ++ toString t

/-- Serialization of one key/value pair for fingerprinting. -/
def encodePair (p : String × PyVal) : String :=
  p.1 ++ "=" ++ p.2.encode

/-- Modelled from the spec: the batch-kwargs fingerprint (`to_id` of
`great_expectations/core/id_dict.py`, which is not under src/)
"deterministically hashes" the mapping's key/value content,
"independent of insertion order"; modelled as the canonical
serialization that the hash is applied to: the sorted list of
serialized key/value pairs. -/
def batch_fingerprint (m : KwargsDict) : List String :=
  List.insertionSort (fun a b => a ≤ b) (m.map encodePair)

/-!
Embedding of `src/great_expectations/cli/checkpoint.py`
(`checkpoint_run`, `checkpoint_list`, `_exit_with_failure_message`).
Collaborators (`context.get_checkpoint`, `cli.util.load_expectation_suite`,
`toolkit.load_batch`, indexing a loaded batch object,
`context.run_validation_operator`) are oracles supplied in a `Ctx`
record. Observable behavior is collected in a `RunLog`: the
`cli_message` outputs, the `send_usage_message` telemetry events
emitted by this file, and — as instrumentation — the arguments of
each `load_batch` and `run_validation_operator` call.
-/

/-- An expectation suite, opaque to this component. -/
structure Suite where
  name : String
deriving DecidableEq, Repr

/-- A loaded batch object returned by `toolkit.load_batch`, opaque. -/
structure Batch where
  tag : Nat
deriving DecidableEq, Repr

/-- One entry of the checkpoint definition's `batches` sequence. -/
structure BatchDescriptor where
  batch_kwargs : KwargsDict
  expectation_suite_names : List String
deriving DecidableEq, Repr

/-- A loaded checkpoint definition. -/
structure CheckpointConfig where
  validation_operator_name : String
  batches : List BatchDescriptor
deriving DecidableEq, Repr

/-- Result of `context.get_checkpoint`: a config, or one of the two
caught exceptions (`CheckpointNotFoundError`, or another
`CheckpointError` carrying its message). -/
inductive CheckpointFetch where
  | ok (config : CheckpointConfig)
  | notFound
  | otherError (msg : String)

/-- Aggregated result of `context.run_validation_operator`
(`results["success"]`). -/
structure ValidationResult where
  success : Bool
deriving DecidableEq, Repr

/-- How the process terminates: `sys.exit(code)` from this file, an
exception this file never catches (named by its Python type), or a
termination performed inside the external helper
`cli.util.load_expectation_suite` (which prints and exits itself). -/
inductive Outcome where
  | exited (code : Nat)
  | uncaught (exn : String)
  | helperExit
deriving DecidableEq, Repr

/-- Collaborator oracles. `load_suite` returns `none` when the
external helper takes over and terminates the process;
`load_batch` errors model a raised `DataContextError`;
`batch_getitem` is Python's `loadedBatch["batch_kwargs"]` subscript
on the object returned by `load_batch` (an error models a raised
exception such as `KeyError`); `run_op` errors model an exception
raised by `context.run_validation_operator`. -/
structure Ctx where
  get_checkpoint : String → CheckpointFetch
  load_suite : String → Option Suite
  load_batch : Suite → KwargsDict → Except String Batch
  batch_getitem : Batch → String → Except String KwargsDict
  run_op : String → List Batch → Except String ValidationResult

/-- Observable trace of one CLI invocation. -/
structure RunLog where
  messages : List String
  events : List (String × Bool)
  loadCalls : List (String × KwargsDict)
  opCalls : List (String × List Batch)
deriving DecidableEq, Repr

/-- The empty trace. -/
def RunLog.empty : RunLog :=
  { messages := [], events := [], loadCalls := [], opCalls := [] }

/-- `_exit_with_failure_message(context, usage_event, message)`:
`cli_message(message)`, `send_usage_message(..., success=False)`,
`sys.exit(1)`. -/
def exit_with_failure_message (log : RunLog) (usage_event message : String) :
    RunLog × Outcome :=
  ({ log with messages := log.messages ++ [message],
              events := log.events ++ [(usage_event, false)] }, .exited 1)

/-- The value of the loop variable `batch` of `checkpoint_run`'s outer
loop: initially a descriptor from the checkpoint config, rebound to
the loaded `Batch` object by `batch = toolkit.load_batch(...)`. -/
abbrev BatchVar := BatchDescriptor ⊕ Batch

/-- `batch["batch_kwargs"]` on the current value of the loop
variable: field access on the descriptor, or subscripting the
previously loaded batch object. -/
def getBatchKwargs (ctx : Ctx) : BatchVar → Except String KwargsDict
  | .inl d => .ok d.batch_kwargs
  | .inr b => ctx.batch_getitem b "batch_kwargs"

/-- The inner loop `for suite_name in batch["expectation_suite_names"]`
of `checkpoint_run`. Each iteration loads the suite, evaluates
`batch["batch_kwargs"]`, calls `toolkit.load_batch` and appends the
result; a raised `DataContextError` is caught and handled by
`_exit_with_failure_message(f"<red>...</red>")` — a call with one
argument to a function of three required positional parameters,
which raises `TypeError` before any message or telemetry, so the
run dies with an uncaught `TypeError`. -/
def suitesLoop (ctx : Ctx) : List String → BatchVar → List Batch → RunLog →
    RunLog × (Outcome ⊕ List Batch)
  | [], _, acc, log => (log, .inr acc)
  | suite_name :: rest, batchVar, acc, log =>
    match ctx.load_suite suite_name with
    | Option.none => (log, .inl .helperExit)
    | some suite =>
      match getBatchKwargs ctx batchVar with
      | .error e => (log, .inl (.uncaught e))
      | .ok batch_kwargs =>
        let log := { log with loadCalls := log.loadCalls ++ [(suite_name, batch_kwargs)] }
        match ctx.load_batch suite batch_kwargs with
        | .error _ => (log, .inl (.uncaught "TypeError"))
        | .ok b => suitesLoop ctx rest (.inr b) (acc ++ [b]) log

/-- The outer loop `for batch in checkpoint_config["batches"]` of
`checkpoint_run`: each descriptor seeds the loop variable and runs
the inner loop, accumulating `batches_to_validate`. -/
def batchesLoop (ctx : Ctx) : List BatchDescriptor → List Batch → RunLog →
    RunLog × (Outcome ⊕ List Batch)
  | [], acc, log => (log, .inr acc)
  | d :: rest, acc, log =>
    match suitesLoop ctx d.expectation_suite_names (.inl d) acc log with
    | (log, .inl o) => (log, .inl o)
    | (log, .inr acc) => batchesLoop ctx rest acc log

/-- The `cli_message` text of the `CheckpointNotFoundError` branch. -/
def notFoundMessage (checkpoint : String) : String :=
  "<red>Could not find checkpoint `" ++ checkpoint ++ "`.</red> Try running:\n" ++
  "  - `<green>great_expectations checkpoint list</green>` to verify your checkpoint exists\n" ++
  "  - `<green>great_expectations checkpoint new</green>` to configure a new checkpoint"

/-- `checkpoint_run(checkpoint, directory)` after the data context is
loaded. Note `usage_event` is the literal `"cli.checkpoint.list"` in
the source. -/
def checkpoint_run (ctx : Ctx) (checkpoint : String) : RunLog × Outcome :=
  let usage_event := "cli.checkpoint.list"
  match ctx.get_checkpoint checkpoint with
  | .notFound => exit_with_failure_message RunLog.empty usage_event (notFoundMessage checkpoint)
  | .otherError msg =>
      exit_with_failure_message RunLog.empty usage_event ("<red>" ++ msg ++ "</red>")
  | .ok config =>
    match batchesLoop ctx config.batches [] RunLog.empty with
    | (log, .inl o) => (log, o)
    | (log, .inr batches_to_validate) =>
      let validation_operator_name := config.validation_operator_name
      let log := { log with
        opCalls := log.opCalls ++ [(validation_operator_name, batches_to_validate)] }
      match ctx.run_op validation_operator_name batches_to_validate with
      | .error e => (log, .uncaught e)
      | .ok results =>
        if !results.success then
          ({ log with messages := log.messages ++ ["Validation Failed!"],
                      events := log.events ++ [(usage_event, true)] }, .exited 1)
        else
          ({ log with messages := log.messages ++ ["Validation Succeeded!"],
                      events := log.events ++ [(usage_event, true)] }, .exited 0)

/-- `checkpoint_list(directory)` after the data context is loaded:
prints "No checkpoints found." and exits 0 when empty, else prints
`Found n checkpoint[s].` followed by the names (via
`cli_message_list`) and returns normally (exit 0). It sends no
usage message at all. -/
def checkpoint_list (checkpoints : List String) : RunLog × Outcome :=
  if checkpoints.isEmpty then
    ({ RunLog.empty with messages := ["No checkpoints found."] }, .exited 0)
  else
    let number_found := checkpoints.length
    let plural := if 1 < number_found then "s" else ""
    let message := "Found " ++ toString number_found ++ " checkpoint" ++ plural ++ "."
    ({ RunLog.empty with messages := message :: checkpoints }, .exited 0)

/-!
Concrete instances used to evaluate the model, mirroring the
fixtures of `src/tests/cli/test_checkpoint.py`.
-/

/-- The batch kwargs used by the `bad_batch.yml` test fixtures. -/
def titanicKwargs : KwargsDict :=
  [("path", .str "/totally/not/a/file.csv"),
   ("datasource", .str "mydatasource"),
   ("reader_method", .str "read_csv")]

/-- A checkpoint whose single batch descriptor has an empty
`expectation_suite_names` sequence. -/
def emptySuitesConfig : CheckpointConfig :=
  { validation_operator_name := "action_list_operator",
    batches := [{ batch_kwargs := titanicKwargs, expectation_suite_names := [] }] }

/-- A context holding only the empty-suites checkpoint; its validation
operator reports success on whatever it receives. -/
def ctxEmptySuites : Ctx :=
  { get_checkpoint := fun name =>
      if name = "bad_batch" then .ok emptySuitesConfig else .notFound,
    load_suite := fun _ => Option.none,
    load_batch := fun _ _ => .error "DataContextError",
    batch_getitem := fun _ _ => .error "KeyError",
    run_op := fun _ _ => .ok { success := true } }

/-- A checkpoint whose single batch (suite `bar`) points at an
unreachable source, so `toolkit.load_batch` raises. -/
def loadFailConfig : CheckpointConfig :=
  { validation_operator_name := "action_list_operator",
    batches := [{ batch_kwargs := titanicKwargs, expectation_suite_names := ["bar"] }] }

/-- A context in which the suite loads but the batch load raises a
`DataContextError`. -/
def ctxLoadFail : Ctx :=
  { get_checkpoint := fun name =>
      if name = "bad_batch" then .ok loadFailConfig else .notFound,
    load_suite := fun s => if s = "bar" then some ⟨"bar"⟩ else Option.none,
    load_batch := fun _ _ => .error "DataContextError",
    batch_getitem := fun _ _ => .error "KeyError",
    run_op := fun _ _ => .ok { success := true } }

/-- A checkpoint naming the unregistered validation operator `foo`,
with one loadable batch (suite `iceberg`). -/
def badOperatorConfig : CheckpointConfig :=
  { validation_operator_name := "foo",
    batches := [{ batch_kwargs := titanicKwargs, expectation_suite_names := ["iceberg"] }] }

/-- A context in which everything loads but
`context.run_validation_operator` raises on the unregistered
operator name. -/
def ctxBadOperator : Ctx :=
  { get_checkpoint := fun name =>
      if name = "bad_operator" then .ok badOperatorConfig else .notFound,
    load_suite := fun s => if s = "iceberg" then some ⟨"iceberg"⟩ else Option.none,
    load_batch := fun _ _ => .ok ⟨7⟩,
    batch_getitem := fun _ _ => .error "KeyError",
    run_op := fun _ _ => .error "DataContextError" }

/-- Kwargs of the checkpoint-file descriptor used for the
loop-rebinding witness. -/
def kwA : KwargsDict := [("path", .str "/data/a.csv")]

/-- Value of subscripting the first loaded batch with
`"batch_kwargs"`. -/
def kwB : KwargsDict := [("path", .str "/data/b.csv")]

/-- Value of subscripting the second loaded batch with
`"batch_kwargs"`. -/
def kwC : KwargsDict := [("path", .str "/data/c.csv")]

/-- A context with one checkpoint `cp` whose single descriptor lists
three suites; batch loads succeed and subscripting loaded batch `i`
yields the next kwargs in the chain. -/
def ctxThreeSuites : Ctx :=
  { get_checkpoint := fun name =>
      if name = "cp" then
        .ok { validation_operator_name := "vo",
              batches := [{ batch_kwargs := kwA,
                            expectation_suite_names := ["suite_one", "suite_two", "suite_three"] }] }
      else .notFound,
    load_suite := fun s => some ⟨s⟩,
    load_batch := fun su _ =>
      if su.name = "suite_one" then .ok ⟨1⟩
      else if su.name = "suite_two" then .ok ⟨2⟩
      else .ok ⟨3⟩,
    batch_getitem := fun b _ =>
      if b.tag = 1 then .ok kwB
      else if b.tag = 2 then .ok kwC
      else .error "KeyError",
    run_op := fun _ _ => .ok { success := true } }

/-- A mapping holding every variant's required key, for witnesses. -/
def sampleAllKeys : KwargsDict :=
  [("path", .str "/data/a.csv"),
   ("s3", .str "s3://bucket/key"),
   ("dataset", .pandasDF 0),
   ("table", .str "titanic"),
   ("query", .str "SELECT 1")]

/-!
Theorems settling the claims.
-/

/-- C9: for every input mapping, constructing `BatchMarkers` raises
`InvalidBatchIdError` exactly when the key `ge_load_time` is absent;
when it is present, construction succeeds and the `ge_load_time`
accessor returns exactly the stored value. -/
theorem C9_batch_markers_ge_load_time (m : KwargsDict) :
    ((∃ s, BatchMarkers.init m = .error (.invalidBatchIdError s)) ↔
      m.lookup "ge_load_time" = Option.none) ∧
    (∀ v, m.lookup "ge_load_time" = some v →
      BatchMarkers.init m = .ok ⟨m⟩ ∧ (⟨m⟩ : BatchMarkers).ge_load_time = some v) := by
  constructor
  · cases h : m.lookup "ge_load_time" <;> simp [BatchMarkers.init, h]
  · intro v hv
    exact ⟨by simp [BatchMarkers.init, hv], by simp [BatchMarkers.ge_load_time, hv]⟩

/-- C9 witness: a mapping with `ge_load_time` constructs and the
accessor returns the stored value; the empty mapping is rejected. -/
theorem C9_batch_markers_ge_load_time_witness :
    (BatchMarkers.init [("ge_load_time", PyVal.str "20200403T000000")] =
        .ok ⟨[("ge_load_time", PyVal.str "20200403T000000")]⟩ ∧
      (⟨[("ge_load_time", PyVal.str "20200403T000000")]⟩ : BatchMarkers).ge_load_time =
        some (PyVal.str "20200403T000000")) ∧
    (∃ s, BatchMarkers.init [] = .error (.invalidBatchIdError s)) :=
  ⟨(C9_batch_markers_ge_load_time [("ge_load_time", PyVal.str "20200403T000000")]).2
      (PyVal.str "20200403T000000") (by decide),
   (C9_batch_markers_ge_load_time []).1.mpr (by decide)⟩

/-- C10: two BatchKwargs mappings with identical key/value content, in
any insertion order, have equal batch-kwargs fingerprints. -/
theorem C10_fingerprint_order_independent (m1 m2 : KwargsDict) (h : m1.Perm m2) :
    batch_fingerprint m1 = batch_fingerprint m2 := by
  unfold batch_fingerprint
  exact List.eq_of_perm_of_sorted
    (((List.perm_insertionSort _ _).trans (h.map encodePair)).trans
      (List.perm_insertionSort _ _).symm)
    (List.sorted_insertionSort _ _) (List.sorted_insertionSort _ _)

/-- C10 witness: the two-key mapping in both insertion orders yields
the same fingerprint. -/
theorem C10_fingerprint_order_independent_witness :
    batch_fingerprint [("datasource", PyVal.str "mydatasource"), ("path", PyVal.str "/a.csv")] =
      batch_fingerprint [("path", PyVal.str "/a.csv"), ("datasource", PyVal.str "mydatasource")] :=
  C10_fingerprint_order_independent _ _ (List.Perm.swap _ _ _)

/-- C8: when a dataset value is supplied,
`PandasDatasourceInMemoryBatchKwargs` construction raises
`InvalidBatchKwargsError` whenever that value is not a pandas
DataFrame (and succeeds when it is), and
`SparkDFDatasourceInMemoryBatchKwargs` construction raises
`InvalidBatchKwargsError` whenever pyspark is not importable or the
value is not a spark DataFrame (and succeeds otherwise); the checks
run inside construction itself, never deferred. -/
theorem C8_in_memory_type_checks (m : KwargsDict) (v : PyVal)
    (hv : m.lookup "dataset" = some v) :
    (v.isPandasDF = false →
      ∃ s, PandasDatasourceInMemoryBatchKwargs.init m = .error (.invalidBatchKwargsError s)) ∧
    (v.isPandasDF = true → PandasDatasourceInMemoryBatchKwargs.init m = .ok ⟨m⟩) ∧
    (∀ pysparkAvailable : Bool, pysparkAvailable = false ∨ v.isSparkDF = false →
      ∃ s, SparkDFDatasourceInMemoryBatchKwargs.init pysparkAvailable m =
        .error (.invalidBatchKwargsError s)) ∧
    (v.isSparkDF = true → SparkDFDatasourceInMemoryBatchKwargs.init true m = .ok ⟨m⟩) := by
  refine ⟨?_, ?_, ?_, ?_⟩
  · intro hp
    exact ⟨"PandasDatasourceInMemoryBatchKwargs 'dataset' must be a pandas DataFrame",
      by simp [PandasDatasourceInMemoryBatchKwargs.init, InMemoryBatchKwargs.init, hv, hp]⟩
  · intro hp
    simp [PandasDatasourceInMemoryBatchKwargs.init, InMemoryBatchKwargs.init, hv, hp]
  · rintro avail (ha | hs)
    · subst ha
      exact ⟨"SparkDFDatasourceInMemoryBatchKwargs requires a valid pyspark installation, but pyspark import failed.",
        by simp [SparkDFDatasourceInMemoryBatchKwargs.init, InMemoryBatchKwargs.init, hv]⟩
    · cases avail
      · exact ⟨"SparkDFDatasourceInMemoryBatchKwargs requires a valid pyspark installation, but pyspark import failed.",
          by simp [SparkDFDatasourceInMemoryBatchKwargs.init, InMemoryBatchKwargs.init, hv]⟩
      · exact ⟨"SparkDFDatasourceInMemoryBatchKwargs 'dataset' must be a spark DataFrame",
          by simp [SparkDFDatasourceInMemoryBatchKwargs.init, InMemoryBatchKwargs.init, hv, hs]⟩
  · intro hs
    simp [SparkDFDatasourceInMemoryBatchKwargs.init, InMemoryBatchKwargs.init, hv, hs]

/-- C8 witness: a pandas frame is accepted by the pandas variant and
rejected by the spark variant even with pyspark available. -/
theorem C8_in_memory_type_checks_witness :
    PandasDatasourceInMemoryBatchKwargs.init [("dataset", PyVal.pandasDF 0)] =
      .ok ⟨[("dataset", PyVal.pandasDF 0)]⟩ ∧
    (∃ s, SparkDFDatasourceInMemoryBatchKwargs.init true [("dataset", PyVal.pandasDF 0)] =
      .error (.invalidBatchKwargsError s)) :=
  ⟨(C8_in_memory_type_checks [("dataset", PyVal.pandasDF 0)] (PyVal.pandasDF 0)
      (by decide)).2.1 (by decide),
   (C8_in_memory_type_checks [("dataset", PyVal.pandasDF 0)] (PyVal.pandasDF 0)
      (by decide)).2.2.1 true (Or.inr (by decide))⟩

/-- C7: for every variant and input mapping, construction raises
`InvalidBatchKwargsError` exactly when the variant's required key
(path, s3, dataset, table, query, query) is absent; when it is
present construction succeeds with the mapping stored intact, and
each accessor (including each optional one: reader_method, limit,
schema, query_parameters) returns exactly the mapping's lookup for
its key — so an absent optional key yields an absent value rather
than failing. -/
theorem C7_variant_required_keys (m : KwargsDict) :
    (((∃ s, PathBatchKwargs.init m = .error (.invalidBatchKwargsError s)) ↔
        m.lookup "path" = Option.none) ∧
      (m.lookup "path" ≠ Option.none → PathBatchKwargs.init m = .ok ⟨m⟩) ∧
      (⟨m⟩ : PathBatchKwargs).path = m.lookup "path" ∧
      (⟨m⟩ : PathBatchKwargs).reader_method = m.lookup "reader_method") ∧
    (((∃ s, S3BatchKwargs.init m = .error (.invalidBatchKwargsError s)) ↔
        m.lookup "s3" = Option.none) ∧
      (m.lookup "s3" ≠ Option.none → S3BatchKwargs.init m = .ok ⟨m⟩) ∧
      (⟨m⟩ : S3BatchKwargs).s3 = m.lookup "s3" ∧
      (⟨m⟩ : S3BatchKwargs).reader_method = m.lookup "reader_method") ∧
    (((∃ s, InMemoryBatchKwargs.init m = .error (.invalidBatchKwargsError s)) ↔
        m.lookup "dataset" = Option.none) ∧
      (m.lookup "dataset" ≠ Option.none → InMemoryBatchKwargs.init m = .ok ⟨m⟩) ∧
      (⟨m⟩ : InMemoryBatchKwargs).dataset = m.lookup "dataset") ∧
    (((∃ s, SqlAlchemyDatasourceTableBatchKwargs.init m = .error (.invalidBatchKwargsError s)) ↔
        m.lookup "table" = Option.none) ∧
      (m.lookup "table" ≠ Option.none → SqlAlchemyDatasourceTableBatchKwargs.init m = .ok ⟨m⟩) ∧
      (⟨m⟩ : SqlAlchemyDatasourceTableBatchKwargs).table = m.lookup "table" ∧
      (⟨m⟩ : SqlAlchemyDatasourceTableBatchKwargs).limit = m.lookup "limit" ∧
      (⟨m⟩ : SqlAlchemyDatasourceTableBatchKwargs).schema = m.lookup "schema") ∧
    (((∃ s, SqlAlchemyDatasourceQueryBatchKwargs.init m = .error (.invalidBatchKwargsError s)) ↔
        m.lookup "query" = Option.none) ∧
      (m.lookup "query" ≠ Option.none → SqlAlchemyDatasourceQueryBatchKwargs.init m = .ok ⟨m⟩) ∧
      (⟨m⟩ : SqlAlchemyDatasourceQueryBatchKwargs).query = m.lookup "query" ∧
      (⟨m⟩ : SqlAlchemyDatasourceQueryBatchKwargs).query_parameters = m.lookup "query_parameters" ∧
      (⟨m⟩ : SqlAlchemyDatasourceQueryBatchKwargs).limit = m.lookup "limit" ∧
      (⟨m⟩ : SqlAlchemyDatasourceQueryBatchKwargs).schema = m.lookup "schema") ∧
    (((∃ s, SparkDFDatasourceQueryBatchKwargs.init m = .error (.invalidBatchKwargsError s)) ↔
        m.lookup "query" = Option.none) ∧
      (m.lookup "query" ≠ Option.none → SparkDFDatasourceQueryBatchKwargs.init m = .ok ⟨m⟩) ∧
      (⟨m⟩ : SparkDFDatasourceQueryBatchKwargs).query = m.lookup "query") := by
  refine ⟨⟨?_, ?_, rfl, rfl⟩, ⟨?_, ?_, rfl, rfl⟩, ⟨?_, ?_, rfl⟩,
    ⟨?_, ?_, rfl, rfl, rfl⟩, ⟨?_, ?_, rfl, rfl, rfl, rfl⟩, ⟨?_, ?_, rfl⟩⟩
  · cases h : m.lookup "path" <;> simp [PathBatchKwargs.init, h]
  · intro hne
    cases h : m.lookup "path" with
    | none => exact absurd h hne
    | some v => simp [PathBatchKwargs.init, h]
  · cases h : m.lookup "s3" <;> simp [S3BatchKwargs.init, h]
  · intro hne
    cases h : m.lookup "s3" with
    | none => exact absurd h hne
    | some v => simp [S3BatchKwargs.init, h]
  · cases h : m.lookup "dataset" <;> simp [InMemoryBatchKwargs.init, h]
  · intro hne
    cases h : m.lookup "dataset" with
    | none => exact absurd h hne
    | some v => simp [InMemoryBatchKwargs.init, h]
  · cases h : m.lookup "table" <;> simp [SqlAlchemyDatasourceTableBatchKwargs.init, h]
  · intro hne
    cases h : m.lookup "table" with
    | none => exact absurd h hne
    | some v => simp [SqlAlchemyDatasourceTableBatchKwargs.init, h]
  · cases h : m.lookup "query" <;> simp [SqlAlchemyDatasourceQueryBatchKwargs.init, h]
  · intro hne
    cases h : m.lookup "query" with
    | none => exact absurd h hne
    | some v => simp [SqlAlchemyDatasourceQueryBatchKwargs.init, h]
  · cases h : m.lookup "query" <;> simp [SparkDFDatasourceQueryBatchKwargs.init, h]
  · intro hne
    cases h : m.lookup "query" with
    | none => exact absurd h hne
    | some v => simp [SparkDFDatasourceQueryBatchKwargs.init, h]

/-- C7 witness: at `sampleAllKeys` every variant constructs, required
accessors return the stored values, absent optional keys read back
as absent, and on the empty mapping each variant is rejected. -/
theorem C7_variant_required_keys_witness :
    (PathBatchKwargs.init sampleAllKeys = .ok ⟨sampleAllKeys⟩ ∧
      (⟨sampleAllKeys⟩ : PathBatchKwargs).path = some (PyVal.str "/data/a.csv") ∧
      (⟨sampleAllKeys⟩ : PathBatchKwargs).reader_method = Option.none) ∧
    (S3BatchKwargs.init sampleAllKeys = .ok ⟨sampleAllKeys⟩ ∧
      (⟨sampleAllKeys⟩ : S3BatchKwargs).s3 = some (PyVal.str "s3://bucket/key")) ∧
    (InMemoryBatchKwargs.init sampleAllKeys = .ok ⟨sampleAllKeys⟩ ∧
      (⟨sampleAllKeys⟩ : InMemoryBatchKwargs).dataset = some (PyVal.pandasDF 0)) ∧
    (SqlAlchemyDatasourceTableBatchKwargs.init sampleAllKeys = .ok ⟨sampleAllKeys⟩ ∧
      (⟨sampleAllKeys⟩ : SqlAlchemyDatasourceTableBatchKwargs).limit = Option.none ∧
      (⟨sampleAllKeys⟩ : SqlAlchemyDatasourceTableBatchKwargs).schema = Option.none) ∧
    (SqlAlchemyDatasourceQueryBatchKwargs.init sampleAllKeys = .ok ⟨sampleAllKeys⟩ ∧
      (⟨sampleAllKeys⟩ : SqlAlchemyDatasourceQueryBatchKwargs).query_parameters = Option.none) ∧
    SparkDFDatasourceQueryBatchKwargs.init sampleAllKeys = .ok ⟨sampleAllKeys⟩ ∧
    (∃ s, PathBatchKwargs.init [] = .error (.invalidBatchKwargsError s)) ∧
    (∃ s, S3BatchKwargs.init [] = .error (.invalidBatchKwargsError s)) ∧
    (∃ s, InMemoryBatchKwargs.init [] = .error (.invalidBatchKwargsError s)) ∧
    (∃ s, SqlAlchemyDatasourceTableBatchKwargs.init [] = .error (.invalidBatchKwargsError s)) ∧
    (∃ s, SqlAlchemyDatasourceQueryBatchKwargs.init [] = .error (.invalidBatchKwargsError s)) ∧
    (∃ s, SparkDFDatasourceQueryBatchKwargs.init [] = .error (.invalidBatchKwargsError s)) :=
  ⟨⟨(C7_variant_required_keys sampleAllKeys).1.2.1 (by decide), by decide, by decide⟩,
   ⟨(C7_variant_required_keys sampleAllKeys).2.1.2.1 (by decide), by decide⟩,
   ⟨(C7_variant_required_keys sampleAllKeys).2.2.1.2.1 (by decide), by decide⟩,
   ⟨(C7_variant_required_keys sampleAllKeys).2.2.2.1.2.1 (by decide), by decide, by decide⟩,
   ⟨(C7_variant_required_keys sampleAllKeys).2.2.2.2.1.2.1 (by decide), by decide⟩,
   (C7_variant_required_keys sampleAllKeys).2.2.2.2.2.2.1 (by decide),
   (C7_variant_required_keys []).1.1.mpr (by decide),
   (C7_variant_required_keys []).2.1.1.mpr (by decide),
   (C7_variant_required_keys []).2.2.1.1.mpr (by decide),
   (C7_variant_required_keys []).2.2.2.1.1.mpr (by decide),
   (C7_variant_required_keys []).2.2.2.2.1.1.mpr (by decide),
   (C7_variant_required_keys []).2.2.2.2.2.1.mpr (by decide)⟩

/-- C1 (code behavior at the failing input): running the checkpoint
whose only batch descriptor has an empty `expectation_suite_names`
sequence does not fail: the inner loop body never executes, the
descriptor is silently skipped, the operator runs on an empty batch
list, no "A batch has no suites associated with it." message is
printed, and the process exits 0 with a success usage event. -/
theorem C1_empty_suite_names_silently_skipped :
    checkpoint_run ctxEmptySuites "bad_batch" =
      ({ messages := ["Validation Succeeded!"],
         events := [("cli.checkpoint.list", true)],
         loadCalls := [],
         opCalls := [("action_list_operator", [])] }, .exited 0) := by
  decide

/-- C2 (code behavior at the failing input): when `toolkit.load_batch`
raises a `DataContextError`, the handler calls
`_exit_with_failure_message` with one argument instead of three, so
a `TypeError` escapes: no "There was a problem loading a batch with
these batch_kwargs" message, no telemetry event, an uncaught
exception instead of a clean `sys.exit(1)`. -/
theorem C2_batch_load_failure_raises_type_error :
    checkpoint_run ctxLoadFail "bad_batch" =
      ({ messages := [],
         events := [],
         loadCalls := [("bar", titanicKwargs)],
         opCalls := [] }, .uncaught "TypeError") := by
  decide

/-- C3: the inner loop rebinds the loop variable `batch` to the loaded
`Batch`; one batch is loaded and dispatched per (descriptor, suite
name) pair, and from the second suite name on, the kwargs passed to
`load_batch` are obtained by subscripting the previously loaded
`Batch` with `"batch_kwargs"`, not taken from the checkpoint
definition's descriptor. -/
theorem C3_loop_variable_rebinding (ctx : Ctx) (cp s1 s2 s3 opName : String)
    (k k1 k2 : KwargsDict) (su1 su2 su3 : Suite) (b1 b2 b3 : Batch) (r : ValidationResult)
    (hcp : ctx.get_checkpoint cp =
      .ok { validation_operator_name := opName,
            batches := [{ batch_kwargs := k, expectation_suite_names := [s1, s2, s3] }] })
    (h1 : ctx.load_suite s1 = some su1)
    (h2 : ctx.load_suite s2 = some su2)
    (h3 : ctx.load_suite s3 = some su3)
    (hb1 : ctx.load_batch su1 k = .ok b1)
    (hg1 : ctx.batch_getitem b1 "batch_kwargs" = .ok k1)
    (hb2 : ctx.load_batch su2 k1 = .ok b2)
    (hg2 : ctx.batch_getitem b2 "batch_kwargs" = .ok k2)
    (hb3 : ctx.load_batch su3 k2 = .ok b3)
    (hop : ctx.run_op opName [b1, b2, b3] = .ok r) :
    (checkpoint_run ctx cp).1.loadCalls = [(s1, k), (s2, k1), (s3, k2)] ∧
    (checkpoint_run ctx cp).1.opCalls = [(opName, [b1, b2, b3])] := by
  obtain ⟨s⟩ := r
  cases s <;>
    simp [checkpoint_run, batchesLoop, suitesLoop, getBatchKwargs, RunLog.empty,
      hcp, h1, h2, h3, hb1, hg1, hb2, hg2, hb3, hop]

/-- C3 witness: in `ctxThreeSuites` the three `load_batch` calls
receive the descriptor's kwargs and then the two subscripted ones,
and the three loaded batches are dispatched together. -/
theorem C3_loop_variable_rebinding_witness :
    (checkpoint_run ctxThreeSuites "cp").1.loadCalls =
      [("suite_one", kwA), ("suite_two", kwB), ("suite_three", kwC)] ∧
    (checkpoint_run ctxThreeSuites "cp").1.opCalls =
      [("vo", [⟨1⟩, ⟨2⟩, ⟨3⟩])] :=
  C3_loop_variable_rebinding ctxThreeSuites "cp" "suite_one" "suite_two" "suite_three" "vo"
    kwA kwB kwC ⟨"suite_one"⟩ ⟨"suite_two"⟩ ⟨"suite_three"⟩ ⟨1⟩ ⟨2⟩ ⟨3⟩ ⟨true⟩
    rfl rfl rfl rfl rfl rfl rfl rfl rfl rfl

/-- C4 (code behavior at the failing input): with the unregistered
operator name `foo`, `checkpoint_run` calls
`context.run_validation_operator` with no surrounding handler; the
collaborator's exception escapes uncaught, no "No validation
operator `foo` was found in your project." message is printed and
no telemetry event is emitted. -/
theorem C4_unknown_operator_uncaught :
    checkpoint_run ctxBadOperator "bad_operator" =
      ({ messages := [],
         events := [],
         loadCalls := [("iceberg", titanicKwargs)],
         opCalls := [("foo", [⟨7⟩])] }, .uncaught "DataContextError") := by
  decide

/-- C5 (code behavior at the failing input): `checkpoint_list` on a
context with one checkpoint prints the listing and exits 0 but
emits zero usage events — not the exactly-one success event the
claim requires. -/
theorem C5_checkpoint_list_emits_no_event :
    checkpoint_list ["my_checkpoint"] =
      ({ messages := ["Found 1 checkpoint.", "my_checkpoint"],
         events := [],
         loadCalls := [],
         opCalls := [] }, .exited 0) := by
  decide

/-- C6 (code behavior at the failing input): a run whose checkpoint
has a batch descriptor with an empty suite list — a failure path
that the claim requires to exit 1 — instead reaches the operator
and exits 0 when the operator reports success. -/
theorem C6_empty_suite_list_exits_zero :
    (checkpoint_run ctxEmptySuites "bad_batch").2 = .exited 0 ∧
    (checkpoint_run ctxEmptySuites "bad_batch").1.events = [("cli.checkpoint.list", true)] := by
  decide

end GE
